import Mathlib

set_option linter.unusedVariables false
set_option linter.unreachableTactic false
set_option linter.unusedTactic false

/-
Formal model of the Brand-Strategy-Manager repository.

The development shallowly embeds the Python sources:
  apps/scrapling-worker/main.py        (fetch escalation, /v1/fetch, /v1/crawl)
  apps/backend/scripts/instagram_scraper.py  (rate limiter, scrape_profile, CLI entry)
  apps/backend/scripts/ddg_search.py   (raw_search)

External libraries (requests, scrapling, BeautifulSoup, instaloader, ddgs) are
modelled as oracles: explicit parameters supplying whatever values the library
calls can return, with `Option`/sum types marking calls that may raise.
Python `dict`s are association lists, machine wall-clock readings are explicit
string arguments, and the single persistent artifact (the rate-limit JSON
file) is an explicit `Option Stats` component of the state.
-/

namespace BrandStrategy

/-! Python string primitives used by the scripts. -/

/-- Whitespace test of Python `str.split()` (ASCII whitespace classes). -/
def pyIsSpace (c : Char) : Bool :=
  c = ' ' || c = '\t' || c = '\n' || c = '\r' || c = '\x0b' || c = '\x0c'

/-- Helper of `py_split_ws`: splits a character list at whitespace runs,
discarding empty pieces, accumulating the current word reversed. -/
def words_aux : List Char → List Char → List (List Char)
  | [], acc => if acc.isEmpty then [] else [acc.reverse]
  | c :: rest, acc =>
    if pyIsSpace c then
      if acc.isEmpty then words_aux rest [] else acc.reverse :: words_aux rest []
    else words_aux rest (c :: acc)

/-- Python `s.split()` (no separator argument): whitespace-delimited words. -/
def py_split_ws (s : String) : List (List Char) :=
  words_aux s.data []

/-- Python `" ".join(ws)` on character lists. -/
def join_sp : List (List Char) → List Char
  | [] => []
  | [w] => w
  | w :: ws => w ++ ' ' :: join_sp ws

/-- Substring test on character lists (Python `needle in hay`). -/
def hasSub (needle hay : List Char) : Bool :=
  (List.range (hay.length + 1)).any fun i => needle.isPrefixOf (hay.drop i)

/-- Python `needle in hay` for strings. -/
def str_contains (hay needle : String) : Bool :=
  hasSub needle.data hay.data

/-- Python `str.strip()` (ASCII whitespace model). -/
def py_strip (s : String) : String :=
  String.mk (((s.data.dropWhile fun c => pyIsSpace c).reverse.dropWhile
    fun c => pyIsSpace c).reverse)

/-- ASCII lowering of one character (model of Python `str.lower` on the
ASCII range the scripts manipulate). -/
def py_lower_char (c : Char) : Char :=
  if 'A' ≤ c ∧ c ≤ 'Z' then Char.ofNat (c.toNat + 32) else c

/-- ASCII raising of one character (model of Python `str.upper`). -/
def py_upper_char (c : Char) : Char :=
  if 'a' ≤ c ∧ c ≤ 'z' then Char.ofNat (c.toNat - 32) else c

/-- Python `s.lower()`. -/
def py_lower (s : String) : String :=
  String.mk (s.data.map py_lower_char)

/-- Python `s.upper()`. -/
def py_upper (s : String) : String :=
  String.mk (s.data.map py_upper_char)

/-- Fuelled helper of `py_replace`; the fuel (initially the haystack
length) only serves structural recursion and never runs out. -/
def py_replace_aux (old new : List Char) : Nat → List Char → List Char
  | 0, l => l
  | _ + 1, [] => []
  | fuel + 1, c :: rest =>
    if old ≠ [] ∧ old.isPrefixOf (c :: rest) then
      new ++ py_replace_aux old new fuel ((c :: rest).drop old.length)
    else c :: py_replace_aux old new fuel rest

/-- Python `s.replace(old, new)` for non-empty `old`: replace every
non-overlapping occurrence left to right. -/
def py_replace (s old new : String) : String :=
  String.mk (py_replace_aux old.data new.data s.data.length s.data)

/-! Embedding of apps/scrapling-worker/main.py. -/

/-- Source `_normalize_mode`: uppercase/trim the mode and collapse anything
outside HTTP/DYNAMIC/STEALTH to AUTO (`str(raw or "AUTO")` treats the empty
string as falsy). -/
def normalize_mode (raw : String) : String :=
  let value := py_upper (py_strip (if raw = "" then "AUTO" else raw))
  if value = "HTTP" ∨ value = "DYNAMIC" ∨ value = "STEALTH" then value else "AUTO"

/-- Source `_clean_text`. BeautifulSoup parsing is the oracle `soup`: applied
to the tag names whose contents are decomposed and the raw html, it returns
the string `soup.get_text(" ")` would produce.  The rest is the source's
`" ".join(text.split())[:80000]`. -/
def clean_text (soup : List String → String → String) (html : String) : String :=
  String.mk ((join_sp (py_split_ws (soup ["script", "style", "noscript"] html))).take 80000)

/-- Source dataclass `FetchResult`. -/
structure FetchResult where
  ok : Bool
  final_url : String
  status_code : Option Int
  html : String
  text : String
  fetcher_used : String
  blocked_suspected : Bool
deriving DecidableEq

/-- Oracle for a `scrapling` fetcher response object: the attributes read via
`getattr`, each optional because the attribute may be absent. -/
structure RawResponse where
  html : String
  status : Option Int
  okAttr : Option Bool
  urlAttr : Option String
deriving DecidableEq

/-- Oracle for a `requests.get` response used by `_basic_fetch`. -/
structure BasicResp where
  text : String
  status_code : Int
  url : String
deriving DecidableEq

/-- Environment of one `_scrapling_fetch` call: library availability flags,
the BeautifulSoup text oracle, and the responses the three fetch paths would
obtain (`none` where the underlying call raises). -/
structure FetchEnv where
  fetcherAvail : Bool
  dynAvail : Bool
  soup : List String → String → String
  httpResp : RawResponse
  dynResp : Option RawResponse
  basicResp : Option BasicResp

/-- Status codes `{401, 403, 429, 503}` treated as block signals. -/
def blocked_codes : List Int := [401, 403, 429, 503]

/-- Block-page tokens searched in the fetched text by `run_http`. -/
def blockers : List String := ["captcha", "access denied", "please verify", "cloudflare"]

/-- Source `_basic_fetch`: plain `requests.get`; `none` when the request
raises. -/
def basic_fetch (env : FetchEnv) (_url : String) : Option FetchResult :=
  env.basicResp.map fun r =>
    { ok := decide ((200 : Int) ≤ r.status_code ∧ r.status_code < (400 : Int))
      final_url := r.url
      status_code := some r.status_code
      html := r.text
      text := clean_text env.soup r.text
      fetcher_used := "HTTP"
      blocked_suspected := blocked_codes.contains r.status_code }

/-- Source closure `run_http` inside `_scrapling_fetch`: builds a FetchResult
from the scrapling `Fetcher` response, marking it blocked on the status codes
or on block-page tokens in the lowered text. -/
def run_http (env : FetchEnv) (url : String) : FetchResult :=
  let html := env.httpResp.html
  let status := env.httpResp.status
  let text := clean_text env.soup html
  { ok := match env.httpResp.okAttr with
      | some b => b
      | none => match status with
        | some s => decide ((200 : Int) ≤ s ∧ s < (400 : Int))
        | none => false
    final_url := match env.httpResp.urlAttr with
      | some u => if u = "" then url else u
      | none => url
    status_code := status
    html := html
    text := text
    fetcher_used := "HTTP"
    blocked_suspected :=
      (match status with | some s => blocked_codes.contains s | none => false)
      || blockers.any fun token => str_contains (py_lower text) token }

/-- Source closure `run_dynamic`: falls back to `_basic_fetch` when the
DynamicFetcher is unavailable; `none` when the underlying call raises. -/
def run_dynamic (env : FetchEnv) (url : String) : Option FetchResult :=
  if env.dynAvail = false then basic_fetch env url
  else env.dynResp.map fun r =>
    { ok := match r.okAttr with
        | some b => b
        | none => match r.status with
          | some s => decide ((200 : Int) ≤ s ∧ s < (400 : Int))
          | none => false
      final_url := match r.urlAttr with
        | some u => if u = "" then url else u
        | none => url
      status_code := r.status
      html := r.html
      text := clean_text env.soup r.html
      fetcher_used := "DYNAMIC"
      blocked_suspected :=
        match r.status with | some s => blocked_codes.contains s | none => false }

/-- Events observed during `_scrapling_fetch` (which fetch paths ran, in
order). -/
inductive FetchEv where
  | http
  | dynamic
  | basic
deriving DecidableEq

/-- Source `_scrapling_fetch`. `none` in the first component models an
uncaught exception.  The second component is the ordered trace of fetch
attempts. -/
def scrapling_fetch (mode : String) (url : String) (env : FetchEnv) :
    Option FetchResult × List FetchEv :=
  if env.fetcherAvail = false then (basic_fetch env url, [FetchEv.basic])
  else
    let selected := normalize_mode mode
    if selected = "HTTP" then (some (run_http env url), [FetchEv.http])
    else if selected = "DYNAMIC" ∨ selected = "STEALTH" then
      (run_dynamic env url, [FetchEv.dynamic])
    else
      let http_result := run_http env url
      if http_result.blocked_suspected || py_strip http_result.text = "" then
        match run_dynamic env url with
        | some d => (some d, [FetchEv.http, FetchEv.dynamic])
        | none => (some http_result, [FetchEv.http, FetchEv.dynamic])
      else (some http_result, [FetchEv.http])

/-! Embedding of the rate limiter in
apps/backend/scripts/instagram_scraper.py. -/

/-- Safety limit `MAX_REQUESTS_PER_HOUR`. -/
def MAX_REQUESTS_PER_HOUR : Int := 150

/-- Safety limit `MAX_REQUESTS_PER_DAY`. -/
def MAX_REQUESTS_PER_DAY : Int := 1000

/-- First-match association-list lookup, the model of Python `dict` access
(`m.get(k)` / `k in m`). -/
def alookup (m : List (String × Int)) (k : String) : Option Int :=
  match m with
  | [] => none
  | (a, b) :: t => if a = k then some b else alookup t k

/-- The limiter's `self.stats` value: the `hourly` and `daily` counter
dictionaries loaded from / dumped to the JSON stats file. -/
structure Stats where
  hourly : List (String × Int)
  daily : List (String × Int)
deriving DecidableEq

/-- The limiter together with the persistent stats file: `stats` is the
in-memory `self.stats`, `file` the JSON file contents (`none` when the file
is absent or unparseable). -/
structure LimState where
  stats : Stats
  file : Option Stats
deriving DecidableEq

/-- Source `RateLimiter._load_stats`: file contents when present, otherwise
the empty counters. -/
def load_stats (file0 : Option Stats) : Stats :=
  file0.getD { hourly := [], daily := [] }

/-- Source `RateLimiter._save_stats`: dump `self.stats` to the stats file. -/
def save_stats (st : LimState) : LimState :=
  { st with file := some st.stats }

/-- Source `RateLimiter.check_limit` at wall-clock keys `current_hour` and
`current_day`: reset either bucket map to a zeroed singleton when its current
key is absent, then raise (the `some msg` component) when a budget is
exhausted.  The mutated `self.stats` is the first component. -/
def check_limit (stats : Stats) (current_hour current_day : String) :
    Stats × Option String :=
  let hourly := if (alookup stats.hourly current_hour).isNone
    then [(current_hour, 0)] else stats.hourly
  let daily := if (alookup stats.daily current_day).isNone
    then [(current_day, 0)] else stats.daily
  let req_hour := (alookup hourly current_hour).getD 0
  let req_day := (alookup daily current_day).getD 0
  if req_hour ≥ MAX_REQUESTS_PER_HOUR then
    (⟨hourly, daily⟩,
      some ("Hourly limit reached (" ++ toString req_hour ++ "/"
        ++ toString MAX_REQUESTS_PER_HOUR ++ "). Cooling down."))
  else if req_day ≥ MAX_REQUESTS_PER_DAY then
    (⟨hourly, daily⟩,
      some ("Daily limit reached (" ++ toString req_day ++ "/"
        ++ toString MAX_REQUESTS_PER_DAY ++ "). Stop for today."))
  else (⟨hourly, daily⟩, none)

/-- Dictionary write `m[k] += c` (the key is known to be present; on a
duplicated key only the first entry is ever read back by `alookup`). -/
def bump_add (m : List (String × Int)) (k : String) (c : Int) :
    List (String × Int) :=
  m.map fun p => if p.1 = k then (p.1, p.2 + c) else p

/-- Source `RateLimiter.increment` without the trailing save: initialize the
missing key to 0, then add `count` under the current hour and day keys. -/
def increment (stats : Stats) (current_hour current_day : String) (count : Int) :
    Stats :=
  let hourly0 := if (alookup stats.hourly current_hour).isNone
    then stats.hourly ++ [(current_hour, 0)] else stats.hourly
  let daily0 := if (alookup stats.daily current_day).isNone
    then stats.daily ++ [(current_day, 0)] else stats.daily
  { hourly := bump_add hourly0 current_hour count
    daily := bump_add daily0 current_day count }

/-- Source `RateLimiter.increment` including its final `self._save_stats()`. -/
def increment_and_save (st : LimState) (current_hour current_day : String)
    (count : Int) : LimState :=
  save_stats { st with stats := increment st.stats current_hour current_day count }

/-! Embedding of `raw_search` in apps/backend/scripts/ddg_search.py. -/

/-- Oracle for one `ddgs.text` result dictionary (fields read with
`r.get(..., '')`). -/
structure SRes where
  title : String
  href : String
  body : String
deriving DecidableEq

/-- One element of the list `raw_search` returns. -/
structure SEntry where
  query : String
  title : String
  href : String
  body : String
deriving DecidableEq

/-- Inner loop of `raw_search` over one query's results: keep results with a
fresh non-empty href, extending the `seen_hrefs` set and the accumulated
`all_results`. -/
def add_results (query : String) :
    List SRes → List String → List SEntry → List String × List SEntry
  | [], seen, acc => (seen, acc)
  | r :: rs, seen, acc =>
    if r.href ≠ "" ∧ r.href ∉ seen then
      add_results query rs (seen ++ [r.href])
        (acc ++ [{ query := query, title := r.title, href := r.href, body := r.body }])
    else add_results query rs seen acc

/-- Outer loop of `raw_search` over the queries; a query whose search raises
(`search q = none`) is skipped. -/
def raw_search_aux (search : String → Option (List SRes)) :
    List String → List String → List SEntry → List SEntry
  | [], _, acc => acc
  | q :: qs, seen, acc =>
    match search q with
    | none => raw_search_aux search qs seen acc
    | some rs =>
      let p := add_results q rs seen acc
      raw_search_aux search qs p.1 p.2

/-- Source `raw_search`: the `ddgs.text` call is the oracle `search`
(already truncated to `max_per_query`; `none` models a raised exception). -/
def raw_search (search : String → Option (List SRes)) (queries : List String) :
    List SEntry :=
  raw_search_aux search queries [] []

/-! Embedding of the `/v1/fetch` and `/v1/crawl` endpoints of
apps/scrapling-worker/main.py. -/

/-- The `/v1/fetch` request fields the handler reads. -/
structure FetchReqM where
  url : String
  mode : String
  returnHtml : Bool
  returnText : Bool
deriving DecidableEq

/-- The `/v1/fetch` response fields built by the handler (html and text are
`none` when the request opted out). -/
structure FetchRespM where
  ok : Bool
  finalUrl : String
  statusCode : Option Int
  fetcherUsed : String
  blockedSuspected : Bool
  html : Option String
  text : Option String
  workerMode : String
deriving DecidableEq

/-- Source handler `fetch`: wraps `_scrapling_fetch`; `none` models the
500 HTTPException raised when the fetch raises. -/
def fetch_endpoint (p : FetchReqM) (env : FetchEnv) : Option FetchRespM :=
  ((scrapling_fetch p.mode p.url env).1).map fun result =>
    { ok := result.ok
      finalUrl := result.final_url
      statusCode := result.status_code
      fetcherUsed := result.fetcher_used
      blockedSuspected := result.blocked_suspected
      html := if p.returnHtml then some result.html else none
      text := if p.returnText then some result.text else none
      workerMode := normalize_mode p.mode }

/-- Python `a or b` on strings: `b` when `a` is falsy (empty). -/
def or_else (a b : String) : String :=
  if a = "" then b else a

/-- Oracle for `urllib.parse.urlparse`: the two attributes the crawl handler
reads. -/
structure UrlParts where
  scheme : String
  hostname : Option String
deriving DecidableEq

/-- Environment of one `/v1/crawl` call: the per-URL fetch environment, the
BeautifulSoup anchor extraction (raw `href` attribute values of `a[href]`
nodes of an html document, in document order), and the `urljoin`/`urlparse`
library oracles. -/
structure CrawlEnv where
  fenv : String → FetchEnv
  links : String → List String
  urljoin : String → String → String
  parse : String → UrlParts

/-- One element of the `pages` list of the crawl response. -/
structure Page where
  url : String
  finalUrl : String
  statusCode : Option Int
  fetcherUsed : String
  text : String
  html : String
deriving DecidableEq

/-- Observable outcome of the crawl loop: the `pages` list, the `failed`
counter, plus instrumentation: the URLs fetched (in order) and every
follow-up link ever appended to the queue. -/
structure CrawlOut where
  pages : List Page
  failedN : Nat
  fetchTrace : List String
  enq : List (String × Nat)
deriving DecidableEq

/-- The crawl request fields (pydantic `CrawlRequest`). -/
structure CrawlReq where
  startUrls : List String
  allowedDomains : Option (List String)
  maxPages : Nat
  maxDepth : Nat
  concurrency : Nat
  mode : String

/-- The `allowed` set computed at the top of the `crawl` handler:
`urlparse(d).hostname or d` per configured domain, dropping falsy values,
lowercased with every occurrence of `"www."` removed (Python
`str.replace` replaces all occurrences). -/
def allowed_of (env : CrawlEnv) (req : CrawlReq) : List String :=
  (((req.allowedDomains.getD []).map fun d =>
      match (env.parse d).hostname with
      | some s => if s = "" then d else s
      | none => d).filter fun d => d ≠ "").map
    fun d => py_replace (py_lower d) "www." ""

/-- Host normalization applied to fetched and follow-up URLs:
`(hostname or "").lower().replace("www.", "")`. -/
def host_norm (env : CrawlEnv) (u : String) : String :=
  py_replace (py_lower ((env.parse u).hostname.getD "")) "www." ""

/-- The per-anchor body of the link loop: trim the href, resolve it against
the base URL, and keep it only when the scheme is http(s), the normalized
host passes the allowed-domain filter, and the URL is not already visited. -/
def follow_link (env : CrawlEnv) (allowed : List String) (visited : List String)
    (base : String) (dep : Nat) (href0 : String) : Option (String × Nat) :=
  let href := py_strip href0
  if href = "" then none
  else
    let next_url := env.urljoin base href
    let parsed := env.parse next_url
    if ¬(parsed.scheme = "http" ∨ parsed.scheme = "https") then none
    else
      let next_host := py_replace (py_lower (parsed.hostname.getD "")) "www." ""
      if allowed ≠ [] ∧ next_host ∉ allowed then none
      else if next_url ∈ visited then none
      else some (next_url, dep + 1)

/-- The `while queued and len(pages) < maxPages` loop of the `crawl`
handler.  The queue is FIFO (`popleft` / `append`), `visited` the set of
URLs already fetched, and a fetch exception increments `failed`. -/
def crawl_loop (env : CrawlEnv) (mode : String) (allowed : List String)
    (maxPages maxDepth : Nat) :
    List (String × Nat) → List String → List Page → Nat → List String →
    List (String × Nat) → CrawlOut
  | [], _, pages, failed, ftrace, enq => ⟨pages, failed, ftrace, enq⟩
  | (u, dep) :: rest, visited, pages, failed, ftrace, enq =>
    if hfull : pages.length < maxPages then
      let normalized := py_strip u
      if normalized = "" ∨ normalized ∈ visited then
        crawl_loop env mode allowed maxPages maxDepth rest visited pages failed
          ftrace enq
      else
        let visited1 := normalized :: visited
        let ftrace1 := ftrace ++ [normalized]
        match (scrapling_fetch mode normalized (env.fenv normalized)).1 with
        | none =>
          crawl_loop env mode allowed maxPages maxDepth rest visited1 pages
            (failed + 1) ftrace1 enq
        | some fetched =>
          let base := or_else fetched.final_url normalized
          let host := host_norm env base
          if allowed ≠ [] ∧ host ≠ "" ∧ host ∉ allowed then
            crawl_loop env mode allowed maxPages maxDepth rest visited1 pages
              failed ftrace1 enq
          else
            let page : Page :=
              { url := normalized, finalUrl := fetched.final_url
                statusCode := fetched.status_code
                fetcherUsed := fetched.fetcher_used
                text := fetched.text, html := fetched.html }
            let pages1 := pages ++ [page]
            if dep ≥ maxDepth then
              crawl_loop env mode allowed maxPages maxDepth rest visited1 pages1
                failed ftrace1 enq
            else
              let newLinks := (env.links fetched.html).filterMap
                (follow_link env allowed visited1 base dep)
              crawl_loop env mode allowed maxPages maxDepth (rest ++ newLinks)
                visited1 pages1 failed ftrace1 (enq ++ newLinks)
    else ⟨pages, failed, ftrace, enq⟩
termination_by q _ pages _ _ _ => (maxPages - pages.length, q.length)
decreasing_by
  all_goals simp_wf
  · apply Prod.Lex.right
    omega
  · apply Prod.Lex.right
    omega
  · apply Prod.Lex.right
    omega
  · apply Prod.Lex.left
    omega
  · apply Prod.Lex.left
    omega

/-- Source handler `crawl`: seed the queue with the start URLs at depth 0 and
run the loop. -/
def crawl (env : CrawlEnv) (req : CrawlReq) : CrawlOut :=
  crawl_loop env req.mode (allowed_of env req) req.maxPages req.maxDepth
    (req.startUrls.map fun u => (u, 0)) [] [] 0 [] []

/-- The `summary` object of the crawl response:
`(queued, fetched, failed)`. -/
def crawl_summary (env : CrawlEnv) (req : CrawlReq) : Nat × Nat × Nat :=
  (req.startUrls.length, (crawl env req).pages.length, (crawl env req).failedN)

/-! Embedding of `scrape_profile` and the CLI entry of
apps/backend/scripts/instagram_scraper.py. -/

/-- One scraped top comment. -/
structure CommentD where
  text : String
  owner : String
  likes : Int
deriving DecidableEq

/-- Oracle for one `instaloader` post object: the attributes the posts loop
reads. -/
structure Post where
  shortcode : String
  caption : Option String
  likes : Int
  comments : Int
  timestamp : String
  media_url : String
  is_video : Bool
  video_url : Option String
  typename : String
deriving DecidableEq

/-- One pull from `profile.get_posts()`: either a post object (together with
the stream its `get_comments()` would yield) or a raised exception. -/
inductive PostEv where
  | ok (p : Post) (comment_stream : List CommentD)
  | exn
deriving DecidableEq

/-- Discriminator of successful iterator pulls. -/
def is_ok_ev : PostEv → Bool
  | PostEv.exn => false
  | PostEv.ok _ _ => true

/-- One element of the `posts` list built by the loop. -/
structure PostEntry where
  external_post_id : String
  post_url : String
  caption : String
  likes : Int
  comments : Int
  timestamp : String
  media_url : String
  is_video : Bool
  video_url : Option String
  typename : String
  top_comments : List CommentD
deriving DecidableEq

/-- The dictionary appended per post (lines 315-327 of the source): comments
are fetched (first 5) only when logged in. -/
def make_post_entry (is_logged_in : Bool) (p : Post) (cs : List CommentD) :
    PostEntry :=
  { external_post_id := p.shortcode
    post_url := "https://instagram.com/p/" ++ p.shortcode ++ "/"
    caption := p.caption.getD ""
    likes := p.likes
    comments := p.comments
    timestamp := p.timestamp
    media_url := p.media_url
    is_video := p.is_video
    video_url := if p.is_video then p.video_url else none
    typename := p.typename
    top_comments := if is_logged_in then cs.take 5 else [] }

/-- The posts loop (lines 290-345): stops at `posts_limit` scraped posts,
charges `increment(1)` per post, and swallows any exception raised while
pulling from the iterator, keeping the posts collected so far. -/
def posts_loop (is_logged_in : Bool) (posts_limit : Int)
    (current_hour current_day : String) :
    List PostEv → Int → LimState → List PostEntry × LimState
  | [], _, st => ([], st)
  | PostEv.exn :: _, _, st => ([], st)
  | PostEv.ok p cs :: rest, current_count, st =>
    if current_count ≥ posts_limit then ([], st)
    else
      let entry := make_post_entry is_logged_in p cs
      let st1 := increment_and_save st current_hour current_day 1
      let q := posts_loop is_logged_in posts_limit current_hour current_day rest
        (current_count + 1) st1
      (entry :: q.1, q.2)

/-- Oracle for the profile metadata read off `instaloader.Profile`. -/
structure ProfileD where
  followers : Int
  followees : Int
  biography : String
  profile_pic_url : String
  is_verified : Bool
  mediacount : Int
deriving DecidableEq

/-- Outcome of `Profile.from_username`: success, a
`ConnectionException` with the given message, or another exception. -/
inductive ProfileFetch where
  | ok (p : ProfileD)
  | connExn (msg : String)
  | otherExn (msg : String)
deriving DecidableEq

/-- One discovered similar account. -/
structure CompD where
  username : String
  full_name : String
  followers : Int
deriving DecidableEq

/-- One pull from `profile.get_similar_accounts()`. -/
inductive CompEv where
  | ok (c : CompD)
  | exn
deriving DecidableEq

/-- `islice(sim_iter, n)` collection with the surrounding try block: the
boolean records whether the iteration raised (skipping the subsequent
`increment(len(competitors))`). -/
def collect_competitors : List CompEv → Nat → List CompD × Bool
  | _, 0 => ([], false)
  | [], _ + 1 => ([], false)
  | CompEv.exn :: _, _ + 1 => ([], true)
  | CompEv.ok c :: rest, n + 1 =>
    let q := collect_competitors rest n
    (c :: q.1, q.2)

/-- Environment of one `scrape_profile` call: the wall clock, the stats file
contents, the session/login outcomes, and the instaloader iterators. -/
structure SPEnv where
  file0 : Option Stats
  hour : String
  day : String
  session_loaded : Bool
  browser_imported : Bool
  creds_present : Bool
  login_ok : Bool
  profile_fetch : ProfileFetch
  comp_stream : List CompEv
  post_stream : List PostEv

/-- Observable side effects of `scrape_profile` before the posts loop. -/
inductive Eff where
  | mk_instaloader
  | profile_request
  | inc (n : Int)
deriving DecidableEq

/-- The result dictionary of a successful `scrape_profile` run. -/
structure SPResult where
  handle : String
  follower_count : Int
  following_count : Int
  bio : String
  profile_pic : String
  is_verified : Bool
  total_posts : Int
  posts : List PostEntry
  discovered_competitors : List CompD
deriving DecidableEq

/-- The two dictionary shapes `scrape_profile` can return: the
`{'error': 'RATE_LIMIT_EXCEEDED', 'message': msg}` early exit or the full
result. -/
inductive SPOut where
  | rate_limited (msg : String)
  | success (r : SPResult)
deriving DecidableEq

/-- Source `scrape_profile`.  Returns the result (or the message of an
uncaught exception), the final limiter state (in-memory stats plus stats
file), and the effect trace of the pre-posts phase. -/
def scrape_profile (env : SPEnv) (handle : String) (posts_limit : Int) :
    Except String SPOut × LimState × List Eff :=
  let st0 : LimState := { stats := load_stats env.file0, file := env.file0 }
  match check_limit st0.stats env.hour env.day with
  | (s1, some msg) =>
    (Except.ok (SPOut.rate_limited msg), { st0 with stats := s1 }, [])
  | (s1, none) =>
    let st1 : LimState := { st0 with stats := s1 }
    let effs0 := [Eff.mk_instaloader]
    let logged1 := env.session_loaded || env.browser_imported
    let password_login := !logged1 && env.creds_present && env.login_ok
    let st2 := if password_login then increment_and_save st1 env.hour env.day 5
      else st1
    let effs1 := if password_login then effs0 ++ [Eff.inc 5] else effs0
    let is_logged_in := logged1 || password_login
    match env.profile_fetch with
    | ProfileFetch.connExn m =>
      if str_contains m "429" || str_contains m "403" then
        (Except.error "INSTAGRAM_RATELIMIT_429", st2, effs1 ++ [Eff.profile_request])
      else (Except.error m, st2, effs1 ++ [Eff.profile_request])
    | ProfileFetch.otherExn m =>
      (Except.error m, st2, effs1 ++ [Eff.profile_request])
    | ProfileFetch.ok profile =>
      let st3 := increment_and_save st2 env.hour env.day 1
      let effs2 := effs1 ++ [Eff.profile_request, Eff.inc 1]
      let comp := if is_logged_in then collect_competitors env.comp_stream 5
        else ([], false)
      let competitors := comp.1
      let st4 := if is_logged_in && !comp.2 then
          increment_and_save st3 env.hour env.day competitors.length
        else st3
      let effs3 := if is_logged_in && !comp.2 then
          effs2 ++ [Eff.inc competitors.length]
        else effs2
      let pl := posts_loop is_logged_in posts_limit env.hour env.day
        env.post_stream 0 st4
      (Except.ok (SPOut.success
        { handle := handle
          follower_count := profile.followers
          following_count := profile.followees
          bio := profile.biography
          profile_pic := profile.profile_pic_url
          is_verified := profile.is_verified
          total_posts := profile.mediacount
          posts := pl.1
          discovered_competitors := competitors }), pl.2, effs3)

/-- Minimal JSON value type for what the CLI entry prints. -/
inductive J where
  | str (s : String)
  | num (n : Int)
  | obj (fields : List (String × J))

/-- The usage message printed when no handle argument is given. -/
def usage_msg : String := "Usage: python3 instagram_scraper.py <handle> [posts_limit]"

/-- The handle computed by the entry block: `sys.argv[1].replace('@', '')`. -/
def handle_of (argv : List String) : String :=
  py_replace (argv.getD 1 "") "@" ""

/-- The posts limit computed by the entry block: `int(sys.argv[2])` when a
third argument is present (via the `py_int` oracle for Python `int()`,
`none` when it raises), else 30. -/
def limit_of (argv : List String) (py_int : String → Option Int) : Option Int :=
  if argv.length > 2 then py_int (argv.getD 2 "") else some 30

/-- The `__main__` block (lines 385-397): the env-file loading only mutates
environment variables and is absorbed into the `scrape` oracle.  Returns the
single JSON object printed to stdout and the exit status; `none` models the
uncaught `ValueError` of `int()`. -/
def main_entry (argv : List String) (py_int : String → Option Int)
    (scrape : String → Int → Except String J) : Option (J × Nat) :=
  if argv.length < 2 then
    some (J.obj [("error", J.str usage_msg)], 1)
  else
    match limit_of argv py_int with
    | none => none
    | some posts_limit =>
      match scrape (handle_of argv) posts_limit with
      | Except.ok data => some (data, 0)
      | Except.error e => some (J.obj [("error", J.str e)], 1)

/-! Concrete instances used by witnesses and counterexamples. -/

/-- Fetch environment for the C1 witness: Fetcher available, the plain HTTP
response a healthy 200 page. -/
def fetch_env_w1 : FetchEnv :=
  { fetcherAvail := true
    dynAvail := true
    soup := fun _ s => s
    httpResp := { html := "hello", status := some 200, okAttr := none, urlAttr := none }
    dynResp := none
    basicResp := none }

/-- Stats value for the C8 witness: the hourly budget exactly exhausted. -/
def stats_w8 : Stats := ⟨[("h1", 150)], [("d1", 0)]⟩

/-- Environment for the C8 witness. -/
def sp_env_w8 : SPEnv :=
  { file0 := some stats_w8
    hour := "h1"
    day := "d1"
    session_loaded := false
    browser_imported := false
    creds_present := false
    login_ok := false
    profile_fetch := ProfileFetch.ok ⟨0, 0, "", "", false, 0⟩
    comp_stream := []
    post_stream := [] }

/-- Search oracle for the C6 witness: query "a" yields two results sharing
one href, any other query raises. -/
def search_w6 : String → Option (List SRes) := fun q =>
  if q = "a" then some [⟨"t", "h", "b"⟩, ⟨"t2", "h", "b2"⟩] else none

/-- Post object for the C7 runs. -/
def post_w7 : Post :=
  ⟨"abc", none, 1, 2, "2024-01-01T00:00:00", "m", false, none, "GraphImage"⟩

/-- Environment for the C7 runs: anonymous session, one post available. -/
def sp_env_c7 : SPEnv :=
  { file0 := none
    hour := "h1"
    day := "d1"
    session_loaded := false
    browser_imported := false
    creds_present := false
    login_ok := false
    profile_fetch := ProfileFetch.ok ⟨10, 5, "bio", "pic", false, 3⟩
    comp_stream := []
    post_stream := [PostEv.ok post_w7 []] }

/-- Result of the C7 counterexample run (`posts_limit = -1`): empty posts. -/
def sp_res_c7 : SPResult :=
  { handle := "acct", follower_count := 10, following_count := 5, bio := "bio",
    profile_pic := "pic", is_verified := false, total_posts := 3, posts := [],
    discovered_competitors := [] }

/-- The post entry built from `post_w7` by an anonymous run. -/
def post_entry_w7 : PostEntry :=
  { external_post_id := "abc", post_url := "https://instagram.com/p/abc/",
    caption := "", likes := 1, comments := 2, timestamp := "2024-01-01T00:00:00",
    media_url := "m", is_video := false, video_url := none,
    typename := "GraphImage", top_comments := [] }

/-- Result of the C7 witness run (`posts_limit = 30`): the one post. -/
def sp_res_w7 : SPResult :=
  { handle := "acct", follower_count := 10, following_count := 5, bio := "bio",
    profile_pic := "pic", is_verified := false, total_posts := 3,
    posts := [post_entry_w7],
    discovered_competitors := [] }

/-- Two adjacent characters are not both whitespace (collapsed-run
property). -/
def no_dsp (a b : Char) : Prop := ¬(pyIsSpace a = true ∧ pyIsSpace b = true)

/-- The claim-side normalization of C9: lowercase, then remove one leading
"www." prefix. -/
def strip_leading_www (s : String) : String :=
  if "www.".data.isPrefixOf s.data then String.mk (s.data.drop 4) else s

/-- Parse oracle of the C9 counterexample (modelled on urlparse). -/
def parse_c9 : String → UrlParts := fun s =>
  if s = "http://a.www.b/" then ⟨"http", some "a.www.b"⟩
  else if s = "http://a.www.b/page2" then ⟨"http", some "a.www.b"⟩
  else ⟨"", none⟩

/-- Per-URL fetch environment of the C9 counterexample: scrapling absent, so
the plain requests path returns a 200 page. -/
def fenv_c9 : String → FetchEnv := fun u =>
  { fetcherAvail := false
    dynAvail := false
    soup := fun _ s => s
    httpResp := ⟨"", none, none, none⟩
    dynResp := none
    basicResp := some ⟨"<h>", 200, u⟩ }

/-- Crawl environment of the C9 counterexample. -/
def env_c9 : CrawlEnv :=
  { fenv := fenv_c9
    links := fun html => if html = "<h>" then ["page2"] else []
    urljoin := fun base href =>
      if base = "http://a.www.b/" ∧ href = "page2" then "http://a.www.b/page2"
      else href
    parse := parse_c9 }

/-- Crawl request of the C9 counterexample. -/
def req_c9 : CrawlReq :=
  { startUrls := ["http://a.www.b/"]
    allowedDomains := some ["a.b"]
    maxPages := 1
    maxDepth := 1
    concurrency := 1
    mode := "HTTP" }

/-- The fetch result obtained for the start URL in the C9 run. -/
def fetched_c9 : FetchResult :=
  { ok := true, final_url := "http://a.www.b/", status_code := some 200
    html := "<h>", text := "<h>", fetcher_used := "HTTP"
    blocked_suspected := false }

/-- The page appended in the C9 run. -/
def page_c9 : Page :=
  { url := "http://a.www.b/", finalUrl := "http://a.www.b/"
    statusCode := some 200, fetcherUsed := "HTTP", text := "<h>", html := "<h>" }

/-- Response of the C10 witness fetch. -/
def resp_w10 : FetchRespM :=
  { ok := true, finalUrl := "http://x/", statusCode := some 200
    fetcherUsed := "HTTP", blockedSuspected := false, html := some "hello"
    text := some "hello", workerMode := "AUTO" }

/-! Lemmas about the rate limiter. -/

theorem check_limit_fst (stats : Stats) (h d : String) :
    (check_limit stats h d).1 =
      ⟨if (alookup stats.hourly h).isNone then [(h, 0)] else stats.hourly,
        if (alookup stats.daily d).isNone then [(d, 0)] else stats.daily⟩ := by
  unfold check_limit
  dsimp only
  split_ifs <;> rfl

theorem check_limit_snd_isSome (stats : Stats) (h d : String) :
    (check_limit stats h d).2.isSome ↔
      MAX_REQUESTS_PER_HOUR ≤ (alookup (check_limit stats h d).1.hourly h).getD 0
      ∨ MAX_REQUESTS_PER_DAY ≤ (alookup (check_limit stats h d).1.daily d).getD 0 := by
  rw [check_limit_fst]
  unfold check_limit
  dsimp only
  split_ifs with h1 h2 h3 h4 <;> simp_all [ge_iff_le]

theorem alookup_append_missing (m : List (String × Int)) (k k' : String) (v : Int)
    (hne : k' ≠ k) : alookup (m ++ [(k, v)]) k' = alookup m k' := by
  induction m with
  | nil => simp [alookup, Ne.symm hne]
  | cons p t ih =>
    obtain ⟨a, b⟩ := p
    by_cases hp : a = k'
    · simp [alookup, hp]
    · simp [alookup, hp, ih]

theorem alookup_append_self (m : List (String × Int)) (k : String) (v : Int)
    (hmiss : alookup m k = none) : alookup (m ++ [(k, v)]) k = some v := by
  induction m with
  | nil => simp [alookup]
  | cons p t ih =>
    obtain ⟨a, b⟩ := p
    by_cases hp : a = k
    · simp [alookup, hp] at hmiss
    · simp [alookup, hp] at hmiss ⊢
      exact ih hmiss

theorem alookup_cons (a : String) (b : Int) (t : List (String × Int)) (k : String) :
    alookup ((a, b) :: t) k = if a = k then some b else alookup t k := rfl

theorem bump_add_cons (a : String) (b : Int) (t : List (String × Int)) (k : String)
    (c : Int) :
    bump_add ((a, b) :: t) k c
      = (if a = k then (a, b + c) else (a, b)) :: bump_add t k c := by
  simp [bump_add]

theorem alookup_bump_self (m : List (String × Int)) (k : String) (c : Int) :
    alookup (bump_add m k c) k = (alookup m k).map (· + c) := by
  induction m with
  | nil => simp [alookup, bump_add]
  | cons p t ih =>
    obtain ⟨a, b⟩ := p
    rw [bump_add_cons]
    by_cases hp : a = k
    · rw [if_pos hp, alookup_cons, alookup_cons, if_pos hp, if_pos hp]
      simp
    · rw [if_neg hp, alookup_cons, alookup_cons, if_neg hp, if_neg hp, ih]

theorem alookup_bump_other (m : List (String × Int)) (k k' : String) (c : Int)
    (hne : k' ≠ k) : alookup (bump_add m k c) k' = alookup m k' := by
  induction m with
  | nil => simp [alookup, bump_add]
  | cons p t ih =>
    obtain ⟨a, b⟩ := p
    rw [bump_add_cons]
    by_cases hp : a = k
    · have hp' : a ≠ k' := by
        rw [hp]
        exact Ne.symm hne
      rw [if_pos hp, alookup_cons, alookup_cons, if_neg hp', if_neg hp', ih]
    · rw [if_neg hp, alookup_cons, alookup_cons, ih]

theorem increment_hourly_self (s : Stats) (h d : String) (c : Int) :
    (alookup (increment s h d c).hourly h).getD 0 = (alookup s.hourly h).getD 0 + c := by
  unfold increment
  dsimp only
  rcases ho : alookup s.hourly h with _ | v
  · simp only [ho, Option.isNone_none, if_true, Option.getD_none]
    rw [alookup_bump_self, alookup_append_self s.hourly h 0 ho]
    simp
  · simp only [ho, Option.isNone_some, Bool.false_eq_true, if_false]
    rw [alookup_bump_self, ho]
    simp

theorem increment_hourly_other (s : Stats) (h d : String) (c : Int) (k : String)
    (hk : k ≠ h) :
    alookup (increment s h d c).hourly k = alookup s.hourly k := by
  unfold increment
  dsimp only
  rcases ho : alookup s.hourly h with _ | v
  · simp only [ho, Option.isNone_none, if_true]
    rw [alookup_bump_other _ _ _ _ hk, alookup_append_missing _ _ _ _ hk]
  · simp only [ho, Option.isNone_some, Bool.false_eq_true, if_false]
    rw [alookup_bump_other _ _ _ _ hk]

theorem increment_daily_self (s : Stats) (h d : String) (c : Int) :
    (alookup (increment s h d c).daily d).getD 0 = (alookup s.daily d).getD 0 + c := by
  unfold increment
  dsimp only
  rcases ho : alookup s.daily d with _ | v
  · simp only [ho, Option.isNone_none, if_true, Option.getD_none]
    rw [alookup_bump_self, alookup_append_self s.daily d 0 ho]
    simp
  · simp only [ho, Option.isNone_some, Bool.false_eq_true, if_false]
    rw [alookup_bump_self, ho]
    simp

theorem increment_daily_other (s : Stats) (h d : String) (c : Int) (k : String)
    (hk : k ≠ d) :
    alookup (increment s h d c).daily k = alookup s.daily k := by
  unfold increment
  dsimp only
  rcases ho : alookup s.daily d with _ | v
  · simp only [ho, Option.isNone_none, if_true]
    rw [alookup_bump_other _ _ _ _ hk, alookup_append_missing _ _ _ _ hk]
  · simp only [ho, Option.isNone_some, Bool.false_eq_true, if_false]
    rw [alookup_bump_other _ _ _ _ hk]

/-- Claim C2: for every RateLimiter state and wall-clock time, `check_limit`
first resets the hourly bucket map to `{current_hour: 0}` whenever the
current hour's key is absent (likewise the daily map for the current day),
and then raises `RateLimitExceeded` if and only if the recorded count of the
current hour is at least `MAX_REQUESTS_PER_HOUR` (150) or that of the
current day is at least `MAX_REQUESTS_PER_DAY` (1000); otherwise it returns
normally. -/
theorem claim_c2_check_limit (stats : Stats) (current_hour current_day : String) :
    ((alookup stats.hourly current_hour = none →
        (check_limit stats current_hour current_day).1.hourly = [(current_hour, 0)])
      ∧ (alookup stats.hourly current_hour ≠ none →
        (check_limit stats current_hour current_day).1.hourly = stats.hourly))
    ∧ ((alookup stats.daily current_day = none →
        (check_limit stats current_hour current_day).1.daily = [(current_day, 0)])
      ∧ (alookup stats.daily current_day ≠ none →
        (check_limit stats current_hour current_day).1.daily = stats.daily))
    ∧ ((check_limit stats current_hour current_day).2.isSome ↔
        MAX_REQUESTS_PER_HOUR ≤
          (alookup (check_limit stats current_hour current_day).1.hourly current_hour).getD 0
        ∨ MAX_REQUESTS_PER_DAY ≤
          (alookup (check_limit stats current_hour current_day).1.daily current_day).getD 0) := by
  refine ⟨⟨?_, ?_⟩, ⟨?_, ?_⟩, check_limit_snd_isSome stats current_hour current_day⟩
  · intro hn
    rw [check_limit_fst]
    simp [hn]
  · intro hn
    rw [check_limit_fst]
    simp [Option.isNone_iff_eq_none, hn]
  · intro hn
    rw [check_limit_fst]
    simp [hn]
  · intro hn
    rw [check_limit_fst]
    simp [Option.isNone_iff_eq_none, hn]

/-- Witness for C2 at a concrete state: an empty stats object is reset to a
zeroed singleton for the current hour, and no exception is raised. -/
theorem claim_c2_witness :
    alookup ([] : List (String × Int)) "2026-01-01-00" = none
    ∧ (check_limit ⟨[], []⟩ "2026-01-01-00" "2026-01-01").1.hourly
        = [("2026-01-01-00", 0)] :=
  ⟨rfl, (claim_c2_check_limit ⟨[], []⟩ "2026-01-01-00" "2026-01-01").1.1 rfl⟩

/-- Claim C3: `increment(count)` increases the counters stored under the
current hour and current day keys each by exactly `count` (creating the key
with value 0 first when absent), leaves every other key of the stats
structure unchanged, and then persists the entire stats object to the stats
file. -/
theorem claim_c3_increment (st : LimState) (current_hour current_day : String)
    (count : Int) :
    ((alookup (increment_and_save st current_hour current_day count).stats.hourly
        current_hour).getD 0
      = (alookup st.stats.hourly current_hour).getD 0 + count)
    ∧ (∀ k, k ≠ current_hour →
        alookup (increment_and_save st current_hour current_day count).stats.hourly k
          = alookup st.stats.hourly k)
    ∧ ((alookup (increment_and_save st current_hour current_day count).stats.daily
        current_day).getD 0
      = (alookup st.stats.daily current_day).getD 0 + count)
    ∧ (∀ k, k ≠ current_day →
        alookup (increment_and_save st current_hour current_day count).stats.daily k
          = alookup st.stats.daily k)
    ∧ (increment_and_save st current_hour current_day count).file
        = some (increment_and_save st current_hour current_day count).stats := by
  refine ⟨?_, ?_, ?_, ?_, rfl⟩
  · exact increment_hourly_self st.stats current_hour current_day count
  · intro k hk
    exact increment_hourly_other st.stats current_hour current_day count k hk
  · exact increment_daily_self st.stats current_hour current_day count
  · intro k hk
    exact increment_daily_other st.stats current_hour current_day count k hk

/-- Witness for C3 at a concrete state: incrementing by 2 bumps the current
hour counter from 0 to 2 and leaves the unrelated key "x" untouched. -/
theorem claim_c3_witness :
    ("x" : String) ≠ "2026-01-01-00"
    ∧ alookup (increment_and_save ⟨⟨[("x", 7)], []⟩, none⟩ "2026-01-01-00"
        "2026-01-01" 2).stats.hourly "x" = some 7
    ∧ (alookup (increment_and_save ⟨⟨[("x", 7)], []⟩, none⟩ "2026-01-01-00"
        "2026-01-01" 2).stats.hourly "2026-01-01-00").getD 0 = 2 := by
  refine ⟨by decide, ?_, ?_⟩
  · rw [(claim_c3_increment ⟨⟨[("x", 7)], []⟩, none⟩ "2026-01-01-00" "2026-01-01" 2).2.1
      "x" (by decide)]
    rfl
  · have hself :=
      (claim_c3_increment ⟨⟨[("x", 7)], []⟩, none⟩ "2026-01-01-00" "2026-01-01" 2).1
    simpa using hself

/-- Claim C1: in AUTO mode (any mode string not normalizing to
HTTP/DYNAMIC/STEALTH) with the scrapling Fetcher available,
`_scrapling_fetch` performs the HTTP fetch first; when that HTTP result is
not suspected blocked and its text is non-empty after stripping, it is
returned unchanged with `fetcher_used = "HTTP"`; otherwise the dynamic fetch
runs and its result is returned, except that a dynamic-fetch exception
yields the original HTTP result. -/
theorem claim_c1_auto_escalation (mode url : String) (env : FetchEnv)
    (hmode : normalize_mode mode = "AUTO") (havail : env.fetcherAvail = true) :
    ((scrapling_fetch mode url env).2.head? = some FetchEv.http)
    ∧ (run_http env url).fetcher_used = "HTTP"
    ∧ ((run_http env url).blocked_suspected = false →
        py_strip (run_http env url).text ≠ "" →
        scrapling_fetch mode url env = (some (run_http env url), [FetchEv.http]))
    ∧ ((run_http env url).blocked_suspected = true ∨ py_strip (run_http env url).text = "" →
        (∀ d, run_dynamic env url = some d →
          scrapling_fetch mode url env = (some d, [FetchEv.http, FetchEv.dynamic]))
        ∧ (run_dynamic env url = none →
          scrapling_fetch mode url env
            = (some (run_http env url), [FetchEv.http, FetchEv.dynamic]))) := by
  have hnotbasic : ¬env.fetcherAvail = false := by
    rw [havail]
    decide
  have hne1 : ¬(("AUTO" : String) = "HTTP") := by decide
  have hne2 : ¬((("AUTO" : String) = "DYNAMIC") ∨ (("AUTO" : String) = "STEALTH")) := by
    decide
  refine ⟨?_, rfl, ?_, ?_⟩
  · unfold scrapling_fetch
    rw [if_neg hnotbasic]
    dsimp only
    rw [hmode, if_neg hne1, if_neg hne2]
    split_ifs with hcond
    · cases hd : run_dynamic env url <;> simp [hd]
    · rfl
  · intro hnb hne
    unfold scrapling_fetch
    rw [if_neg hnotbasic]
    dsimp only
    rw [hmode, if_neg hne1, if_neg hne2, if_neg (by simp [hnb, hne])]
  · intro hesc
    have hcond : ((run_http env url).blocked_suspected
        || py_strip (run_http env url).text = "") = true := by
      rcases hesc with hb | ht
      · simp [hb]
      · simp [ht]
    constructor
    · intro d hd
      unfold scrapling_fetch
      rw [if_neg hnotbasic]
      dsimp only
      rw [hmode, if_neg hne1, if_neg hne2, if_pos hcond, hd]
    · intro hd
      unfold scrapling_fetch
      rw [if_neg hnotbasic]
      dsimp only
      rw [hmode, if_neg hne1, if_neg hne2, if_pos hcond, hd]

/-- Witness for C1 at a concrete input: mode "auto " normalizes to AUTO, the
HTTP result is healthy, and the call returns it directly with an HTTP-only
trace. -/
theorem claim_c1_witness :
    normalize_mode "auto " = "AUTO"
    ∧ fetch_env_w1.fetcherAvail = true
    ∧ (run_http fetch_env_w1 "http://x/").blocked_suspected = false
    ∧ py_strip (run_http fetch_env_w1 "http://x/").text ≠ ""
    ∧ scrapling_fetch "auto " "http://x/" fetch_env_w1
        = (some (run_http fetch_env_w1 "http://x/"), [FetchEv.http]) := by
  refine ⟨rfl, rfl, rfl, by decide, ?_⟩
  exact (claim_c1_auto_escalation "auto " "http://x/" fetch_env_w1 rfl rfl).2.2.1 rfl
    (by decide)

/-- Claim C5: with fewer than two CLI arguments the script prints a single
JSON usage-error object and exits with status 1; when `scrape_profile`
returns normally its result dictionary is printed as JSON; when it raises,
`{'error': message}` is printed and the script exits with status 1. -/
theorem claim_c5_cli (argv : List String) (py_int : String → Option Int)
    (scrape : String → Int → Except String J) :
    (argv.length < 2 →
      main_entry argv py_int scrape = some (J.obj [("error", J.str usage_msg)], 1))
    ∧ (∀ lim d, 2 ≤ argv.length → limit_of argv py_int = some lim →
        scrape (handle_of argv) lim = Except.ok d →
        main_entry argv py_int scrape = some (d, 0))
    ∧ (∀ lim e, 2 ≤ argv.length → limit_of argv py_int = some lim →
        scrape (handle_of argv) lim = Except.error e →
        main_entry argv py_int scrape = some (J.obj [("error", J.str e)], 1)) := by
  refine ⟨?_, ?_, ?_⟩
  · intro h
    unfold main_entry
    rw [if_pos h]
  · intro lim d hlen hlim hs
    unfold main_entry
    rw [if_neg (by omega), hlim]
    dsimp only
    rw [hs]
  · intro lim e hlen hlim hs
    unfold main_entry
    rw [if_neg (by omega), hlim]
    dsimp only
    rw [hs]

/-- Witness for C5 at a concrete command line: `@user` is stripped to
`user`, the third argument parses to 5, and the scrape result dictionary is
printed with exit status 0. -/
theorem claim_c5_witness :
    2 ≤ (["prog", "@user", "5"] : List String).length
    ∧ limit_of ["prog", "@user", "5"] (fun s => if s = "5" then some 5 else none)
        = some 5
    ∧ main_entry ["prog", "@user", "5"] (fun s => if s = "5" then some 5 else none)
        (fun h _ => Except.ok (J.str h)) = some (J.str "user", 0) := by
  refine ⟨by decide, rfl, ?_⟩
  exact (claim_c5_cli ["prog", "@user", "5"] (fun s => if s = "5" then some 5 else none)
    (fun h _ => Except.ok (J.str h))).2.1 5 (J.str "user") (by decide) rfl rfl

/-- Claim C8: when `check_limit` raises at the start of `scrape_profile`,
the function returns `{'error': 'RATE_LIMIT_EXCEEDED', 'message': msg}`
without constructing an Instaloader instance, performing a network fetch, or
calling increment (empty effect trace), and the persisted counter file is
unchanged. -/
theorem claim_c8_rate_limit_early_exit (env : SPEnv) (handle : String) (lim : Int)
    (msg : String)
    (h : (check_limit (load_stats env.file0) env.hour env.day).2 = some msg) :
    scrape_profile env handle lim =
      (Except.ok (SPOut.rate_limited msg),
        ⟨(check_limit (load_stats env.file0) env.hour env.day).1, env.file0⟩,
        ([] : List Eff)) := by
  unfold scrape_profile
  dsimp only
  rw [show check_limit (load_stats env.file0) env.hour env.day
      = ((check_limit (load_stats env.file0) env.hour env.day).1, some msg) by
    rw [← h]]

/-- Witness for C8 at a concrete state whose hourly budget is exhausted: the
early error-return happens with no effects and an untouched stats file. -/
theorem claim_c8_witness :
    (check_limit (load_stats sp_env_w8.file0) sp_env_w8.hour sp_env_w8.day).2
      = some "Hourly limit reached (150/150). Cooling down."
    ∧ scrape_profile sp_env_w8 "acct" 30
      = (Except.ok (SPOut.rate_limited "Hourly limit reached (150/150). Cooling down."),
          ⟨stats_w8, some stats_w8⟩, ([] : List Eff)) := by
  refine ⟨rfl, ?_⟩
  exact claim_c8_rate_limit_early_exit sp_env_w8 "acct" 30
    "Hourly limit reached (150/150). Cooling down." rfl

/-! Lemmas about `raw_search`. -/

theorem add_results_mem (q : String) (rs : List SRes) :
    ∀ seen acc (e : SEntry), e ∈ (add_results q rs seen acc).2 →
      e ∈ acc ∨ (e.query = q ∧ e.href ≠ "" ∧
        ∃ r ∈ rs, e.title = r.title ∧ e.href = r.href ∧ e.body = r.body) := by
  induction rs with
  | nil =>
    intro seen acc e he
    exact Or.inl he
  | cons r rs ih =>
    intro seen acc e he
    simp only [add_results] at he
    split_ifs at he with hc
    · rcases ih _ _ e he with hacc | ⟨hq, hne, r', hr', hf⟩
      · rcases List.mem_append.mp hacc with h1 | h2
        · exact Or.inl h1
        · simp only [List.mem_singleton] at h2
          subst h2
          exact Or.inr ⟨rfl, hc.1, r, List.mem_cons_self .., rfl, rfl, rfl⟩
      · exact Or.inr ⟨hq, hne, r', List.mem_cons_of_mem _ hr', hf⟩
    · rcases ih _ _ e he with hacc | ⟨hq, hne, r', hr', hf⟩
      · exact Or.inl hacc
      · exact Or.inr ⟨hq, hne, r', List.mem_cons_of_mem _ hr', hf⟩

theorem add_results_invar (q : String) (rs : List SRes) :
    ∀ seen acc, (∀ e ∈ acc, e.href ∈ seen) →
      acc.Pairwise (fun a b => a.href ≠ b.href) →
      (∀ e ∈ (add_results q rs seen acc).2, e.href ∈ (add_results q rs seen acc).1)
      ∧ (add_results q rs seen acc).2.Pairwise (fun a b => a.href ≠ b.href) := by
  induction rs with
  | nil =>
    intro seen acc hI hpw
    exact ⟨hI, hpw⟩
  | cons r rs ih =>
    intro seen acc hI hpw
    simp only [add_results]
    split_ifs with hc
    · apply ih
      · intro e he
        rcases List.mem_append.mp he with h1 | h2
        · exact List.mem_append_left _ (hI e h1)
        · simp only [List.mem_singleton] at h2
          subst h2
          exact List.mem_append_right _ (by simp)
      · rw [List.pairwise_append]
        refine ⟨hpw, List.pairwise_singleton .., ?_⟩
        intro a ha b hb
        simp only [List.mem_singleton] at hb
        subst hb
        intro hEq
        apply hc.2
        have hmem := hI a ha
        rw [hEq] at hmem
        exact hmem
    · exact ih seen acc hI hpw

theorem raw_search_aux_mem (search : String → Option (List SRes)) :
    ∀ qs seen acc (e : SEntry), e ∈ raw_search_aux search qs seen acc →
      e ∈ acc ∨ (e.query ∈ qs ∧ e.href ≠ "" ∧
        ∃ rs, search e.query = some rs ∧ ∃ r ∈ rs,
          e.title = r.title ∧ e.href = r.href ∧ e.body = r.body) := by
  intro qs
  induction qs with
  | nil =>
    intro seen acc e he
    exact Or.inl he
  | cons q qs ih =>
    intro seen acc e he
    simp only [raw_search_aux] at he
    rcases hsq : search q with _ | rs
    · rw [hsq] at he
      dsimp only at he
      rcases ih _ _ e he with h | ⟨hq, hne, hex⟩
      · exact Or.inl h
      · exact Or.inr ⟨List.mem_cons_of_mem _ hq, hne, hex⟩
    · rw [hsq] at he
      dsimp only at he
      rcases ih _ _ e he with h | ⟨hq, hne, hex⟩
      · rcases add_results_mem q rs seen acc e h with h1 | ⟨hq2, hne2, r', hr', hf⟩
        · exact Or.inl h1
        · refine Or.inr ⟨?_, hne2, ⟨rs, ?_, r', hr', hf⟩⟩
          · rw [hq2]
            exact List.mem_cons_self ..
          · rw [hq2]
            exact hsq
      · exact Or.inr ⟨List.mem_cons_of_mem _ hq, hne, hex⟩

theorem raw_search_aux_pairwise (search : String → Option (List SRes)) :
    ∀ qs seen acc, (∀ e ∈ acc, e.href ∈ seen) →
      acc.Pairwise (fun a b => a.href ≠ b.href) →
      (raw_search_aux search qs seen acc).Pairwise (fun a b => a.href ≠ b.href) := by
  intro qs
  induction qs with
  | nil =>
    intro seen acc hI hpw
    exact hpw
  | cons q qs ih =>
    intro seen acc hI hpw
    simp only [raw_search_aux]
    rcases hsq : search q with _ | rs
    · exact ih _ _ hI hpw
    · have hinv := add_results_invar q rs seen acc hI hpw
      exact ih _ _ hinv.1 hinv.2

theorem raw_search_aux_filter (search : String → Option (List SRes)) :
    ∀ qs seen acc, raw_search_aux search qs seen acc
      = raw_search_aux search (qs.filter fun q => (search q).isSome) seen acc := by
  intro qs
  induction qs with
  | nil =>
    intro seen acc
    rfl
  | cons q qs ih =>
    intro seen acc
    rcases hsq : search q with _ | rs
    · simp only [raw_search_aux, hsq, List.filter_cons, Option.isSome_none,
        Bool.false_eq_true, if_false]
      exact ih _ _
    · simp only [raw_search_aux, hsq, List.filter_cons, Option.isSome_some, if_true]
      exact ih _ _

/-- Claim C6: every `raw_search` entry has a non-empty href, hrefs are
pairwise distinct across all queries, each entry carries exactly the query
that produced it together with the title/href/body of an underlying result
of that query, and failing queries contribute nothing without aborting the
remaining queries. -/
theorem claim_c6_raw_search (search : String → Option (List SRes))
    (queries : List String) :
    (∀ e ∈ raw_search search queries, e.href ≠ "")
    ∧ (raw_search search queries).Pairwise (fun a b => a.href ≠ b.href)
    ∧ (∀ e ∈ raw_search search queries, e.query ∈ queries ∧
        ∃ rs, search e.query = some rs ∧ ∃ r ∈ rs,
          e.title = r.title ∧ e.href = r.href ∧ e.body = r.body)
    ∧ raw_search search queries
        = raw_search search (queries.filter fun q => (search q).isSome) := by
  refine ⟨?_, ?_, ?_, ?_⟩
  · intro e he
    rcases raw_search_aux_mem search queries [] [] e he with h | ⟨_, hne, _⟩
    · simp at h
    · exact hne
  · exact raw_search_aux_pairwise search queries [] [] (by simp) (by simp)
  · intro e he
    rcases raw_search_aux_mem search queries [] [] e he with h | ⟨hq, _, hex⟩
    · simp at h
    · exact ⟨hq, hex⟩
  · exact raw_search_aux_filter search queries [] []

/-- Witness for C6 at a concrete oracle: the duplicate href within query
"a" is dropped and the raising query "bad" contributes nothing. -/
theorem claim_c6_witness :
    (⟨"a", "t", "h", "b"⟩ : SEntry) ∈ raw_search search_w6 ["a", "bad"]
    ∧ (⟨"a", "t", "h", "b"⟩ : SEntry).href ≠ ""
    ∧ ("a" : String) ∈ (["a", "bad"] : List String)
    ∧ raw_search search_w6 ["a", "bad"] = [⟨"a", "t", "h", "b"⟩] := by
  refine ⟨by decide, ?_, by decide, by decide⟩
  exact (claim_c6_raw_search search_w6 ["a", "bad"]).1 ⟨"a", "t", "h", "b"⟩ (by decide)

/-! Lemmas about the posts loop. -/

theorem posts_loop_length (b : Bool) (l : Int) (hh dd : String) :
    ∀ evs (c : Int) st,
      (((posts_loop b l hh dd evs c st).1.length : Int)) ≤ max (l - c) 0 := by
  intro evs
  induction evs with
  | nil =>
    intro c st
    simp [posts_loop]
  | cons ev rest ih =>
    intro c st
    cases ev with
    | exn => simp [posts_loop]
    | ok p cs =>
      simp only [posts_loop]
      split_ifs with hc
      · simp
      · have hrec := ih (c + 1) (increment_and_save st hh dd 1)
        simp only [List.length_cons]
        push_cast
        omega

theorem posts_loop_post_url (b : Bool) (l : Int) (hh dd : String) :
    ∀ evs (c : Int) st, ∀ e ∈ (posts_loop b l hh dd evs c st).1,
      e.post_url = "https://instagram.com/p/" ++ e.external_post_id ++ "/" := by
  intro evs
  induction evs with
  | nil =>
    intro c st e he
    simp [posts_loop] at he
  | cons ev rest ih =>
    intro c st e he
    cases ev with
    | exn => simp [posts_loop] at he
    | ok p cs =>
      simp only [posts_loop] at he
      split_ifs at he with hc
      · simp at he
      · simp only [List.mem_cons] at he
        rcases he with he | he
        · subst he
          rfl
        · exact ih _ _ e he

theorem posts_loop_truncate (b : Bool) (l : Int) (hh dd : String) :
    ∀ evs (c : Int) st, posts_loop b l hh dd evs c st
      = posts_loop b l hh dd (evs.takeWhile is_ok_ev) c st := by
  intro evs
  induction evs with
  | nil =>
    intro c st
    rfl
  | cons ev rest ih =>
    intro c st
    cases ev with
    | exn => rfl
    | ok p cs =>
      show posts_loop b l hh dd (PostEv.ok p cs :: rest) c st
        = posts_loop b l hh dd (PostEv.ok p cs :: rest.takeWhile is_ok_ev) c st
      simp only [posts_loop]
      split_ifs with hc
      · rfl
      · rw [ih]

/-- Exception robustness of `scrape_profile`: the whole outcome coincides
with the outcome on the exception-free prefix of the posts iterator, so an
exception raised while iterating posts loses nothing already collected. -/
theorem scrape_profile_truncate (env : SPEnv) (handle : String) (lim : Int) :
    scrape_profile env handle lim
      = scrape_profile { env with post_stream := env.post_stream.takeWhile is_ok_ev }
          handle lim := by
  unfold scrape_profile
  dsimp only
  rcases hcl : check_limit (load_stats env.file0) env.hour env.day with ⟨s1, o⟩
  cases o with
  | some msg => rfl
  | none =>
    dsimp only
    cases hpf : env.profile_fetch with
    | connExn m => rfl
    | otherExn m => rfl
    | ok profile =>
      dsimp only
      rw [posts_loop_truncate]

/-- Claim C7 as amended: the posts list of a successful `scrape_profile` run
has at most `max(posts_limit, 0)` entries, every entry's `post_url` is built
from its `external_post_id`, and an exception while iterating posts leaves
the result equal to the run on the exception-free prefix of the iterator. -/
theorem claim_c7_amended (env : SPEnv) (handle : String) (lim : Int) (r : SPResult)
    (h : (scrape_profile env handle lim).1 = Except.ok (SPOut.success r)) :
    ((r.posts.length : Int) ≤ max lim 0)
    ∧ (∀ e ∈ r.posts,
        e.post_url = "https://instagram.com/p/" ++ e.external_post_id ++ "/")
    ∧ scrape_profile env handle lim
        = scrape_profile { env with post_stream := env.post_stream.takeWhile is_ok_ev }
            handle lim := by
  refine ⟨?_, ?_, scrape_profile_truncate env handle lim⟩ <;>
  · unfold scrape_profile at h
    dsimp only at h
    rcases hcl : check_limit (load_stats env.file0) env.hour env.day with ⟨s1, o⟩
    rw [hcl] at h
    cases o with
    | some msg =>
      dsimp only at h
      simp at h
    | none =>
      dsimp only at h
      rcases hpf : env.profile_fetch with profile | m | m
      · rw [hpf] at h
        dsimp only at h
        simp only [Except.ok.injEq, SPOut.success.injEq] at h
        subst h
        dsimp only
        first
        | · have := posts_loop_length (env.session_loaded || env.browser_imported ||
              (!(env.session_loaded || env.browser_imported) && env.creds_present &&
                env.login_ok)) lim env.hour env.day env.post_stream 0
            simp only [Int.sub_zero] at this
            apply le_trans (this _)
            simp
        | · intro e he
            exact posts_loop_post_url _ lim env.hour env.day env.post_stream 0 _ e he
      · rw [hpf] at h
        dsimp only at h
        split_ifs at h <;> simp at h
      · rw [hpf] at h
        dsimp only at h
        simp at h

/-- Counterexample to C7 as stated: with `posts_limit = -1` the run returns
a dictionary whose posts list has 0 entries, and 0 entries is not "at most
-1 entries". -/
theorem claim_c7_counterexample :
    (scrape_profile sp_env_c7 "acct" (-1)).1 = Except.ok (SPOut.success sp_res_c7)
    ∧ ¬ ((sp_res_c7.posts.length : Int) ≤ -1) := by
  exact ⟨rfl, by decide⟩

/-- Witness for the amended C7 at a concrete run with `posts_limit = 30`:
one post is scraped, within the bound, with the post_url built from the
shortcode. -/
theorem claim_c7_witness :
    (scrape_profile sp_env_c7 "acct" 30).1 = Except.ok (SPOut.success sp_res_w7)
    ∧ ((sp_res_w7.posts.length : Int) ≤ max 30 0)
    ∧ (∀ e ∈ sp_res_w7.posts,
        e.post_url = "https://instagram.com/p/" ++ e.external_post_id ++ "/") := by
  refine ⟨rfl, ?_, ?_⟩
  · exact (claim_c7_amended sp_env_c7 "acct" 30 sp_res_w7 rfl).1
  · exact (claim_c7_amended sp_env_c7 "acct" 30 sp_res_w7 rfl).2.1

/-! Lemmas about `_clean_text`. -/

theorem words_aux_props :
    ∀ l acc, (∀ c ∈ acc, pyIsSpace c = false) →
      ∀ w ∈ words_aux l acc, w ≠ [] ∧ ∀ c ∈ w, pyIsSpace c = false := by
  intro l
  induction l with
  | nil =>
    intro acc hacc w hw
    simp only [words_aux] at hw
    split_ifs at hw with he
    · simp at hw
    · simp only [List.mem_singleton] at hw
      subst hw
      refine ⟨?_, ?_⟩
      · intro hnil
        apply he
        rw [List.isEmpty_iff]
        exact List.reverse_eq_nil_iff.mp hnil
      · intro c hc
        exact hacc c (List.mem_reverse.mp hc)
  | cons a t ih =>
    intro acc hacc w hw
    simp only [words_aux] at hw
    split_ifs at hw with hsp he
    · exact ih [] (by simp) w hw
    · simp only [List.mem_cons] at hw
      rcases hw with hw | hw
      · subst hw
        refine ⟨?_, ?_⟩
        · intro hnil
          apply he
          rw [List.isEmpty_iff]
          exact List.reverse_eq_nil_iff.mp hnil
        · intro c hc
          exact hacc c (List.mem_reverse.mp hc)
      · exact ih [] (by simp) w hw
    · refine ih (a :: acc) ?_ w hw
      intro c hc
      rcases List.mem_cons.mp hc with h | h
      · subst h
        simpa using hsp
      · exact hacc c h

theorem chain_of_nonspace :
    ∀ l : List Char, (∀ c ∈ l, pyIsSpace c = false) → List.Chain' no_dsp l := by
  intro l
  induction l with
  | nil =>
    intro h
    simp
  | cons a t ih =>
    intro h
    cases t with
    | nil => exact List.chain'_singleton a
    | cons b t2 =>
      rw [List.chain'_cons]
      refine ⟨?_, ih fun c hc => h c (List.mem_cons_of_mem _ hc)⟩
      rintro ⟨ha, _⟩
      have := h a (by simp)
      rw [this] at ha
      cases ha

theorem join_sp_head_nonspace :
    ∀ ws : List (List Char), (∀ w ∈ ws, w ≠ [] ∧ ∀ c ∈ w, pyIsSpace c = false) →
      ∀ y ∈ (join_sp ws).head?, pyIsSpace y = false := by
  intro ws hws y hy
  match ws with
  | [] => simp [join_sp] at hy
  | [w] =>
    have hw := hws w (by simp)
    simp only [join_sp] at hy
    cases w with
    | nil => exact absurd rfl hw.1
    | cons a wt =>
      simp only [List.head?_cons, Option.mem_def, Option.some.injEq] at hy
      rw [← hy]
      exact hw.2 a (by simp)
  | w :: w2 :: ws2 =>
    have hw := hws w (by simp)
    simp only [join_sp] at hy
    cases w with
    | nil => exact absurd rfl hw.1
    | cons a wt =>
      simp only [List.cons_append, List.head?_cons, Option.mem_def,
        Option.some.injEq] at hy
      rw [← hy]
      exact hw.2 a (by simp)

theorem join_sp_props :
    ∀ ws : List (List Char), (∀ w ∈ ws, w ≠ [] ∧ ∀ c ∈ w, pyIsSpace c = false) →
      (∀ c ∈ join_sp ws, pyIsSpace c = true → c = ' ')
      ∧ List.Chain' no_dsp (join_sp ws) := by
  intro ws
  induction ws with
  | nil =>
    intro h
    exact ⟨by simp [join_sp], by simp [join_sp]⟩
  | cons w ws ih =>
    intro h
    have hw := h w (by simp)
    cases ws with
    | nil =>
      refine ⟨?_, ?_⟩
      · intro c hc hsp
        simp only [join_sp] at hc
        have := hw.2 c hc
        rw [this] at hsp
        cases hsp
      · show List.Chain' no_dsp (join_sp [w])
        simp only [join_sp]
        exact chain_of_nonspace w hw.2
    | cons w2 ws2 =>
      have hrest : ∀ v ∈ w2 :: ws2, v ≠ [] ∧ ∀ c ∈ v, pyIsSpace c = false :=
        fun v hv => h v (List.mem_cons_of_mem _ hv)
      obtain ⟨ihc, ihchain⟩ := ih hrest
      refine ⟨?_, ?_⟩
      · intro c hc hsp
        simp only [join_sp] at hc
        rcases List.mem_append.mp hc with h1 | h2
        · have := hw.2 c h1
          rw [this] at hsp
          cases hsp
        · rcases List.mem_cons.mp h2 with h3 | h4
          · exact h3
          · exact ihc c h4 hsp
      · show List.Chain' no_dsp (join_sp (w :: w2 :: ws2))
        simp only [join_sp]
        rw [List.chain'_append]
        refine ⟨chain_of_nonspace w hw.2, ?_, ?_⟩
        · rw [List.chain'_cons']
          refine ⟨?_, ihchain⟩
          intro y hy
          have hyn : pyIsSpace y = false :=
            join_sp_head_nonspace (w2 :: ws2) hrest y hy
          rintro ⟨_, hsp2⟩
          rw [hyn] at hsp2
          cases hsp2
        · intro x hx y hy
          simp only [List.head?_cons, Option.mem_def, Option.some.injEq] at hy
          subst hy
          have hxw : x ∈ w := List.mem_of_mem_getLast? hx
          rintro ⟨hsp1, _⟩
          have := hw.2 x hxw
          rw [this] at hsp1
          cases hsp1

theorem clean_text_length (soup : List String → String → String) (html : String) :
    (clean_text soup html).length ≤ 80000 := by
  show (List.take 80000 (join_sp (py_split_ws
    (soup ["script", "style", "noscript"] html)))).length ≤ 80000
  exact List.length_take_le ..

theorem clean_text_collapsed (soup : List String → String → String)
    (html : String) :
    (∀ c ∈ (clean_text soup html).data, pyIsSpace c = true → c = ' ')
    ∧ List.Chain' no_dsp (clean_text soup html).data := by
  have hwords : ∀ w ∈ py_split_ws (soup ["script", "style", "noscript"] html),
      w ≠ [] ∧ ∀ c ∈ w, pyIsSpace c = false :=
    words_aux_props _ [] (by simp)
  obtain ⟨hc, hchain⟩ := join_sp_props _ hwords
  refine ⟨?_, ?_⟩
  · intro c hcm
    exact hc c (List.mem_of_mem_take hcm)
  · exact hchain.prefix (List.take_prefix ..)

theorem run_http_text_bound (env : FetchEnv) (url : String) :
    (run_http env url).text.length ≤ 80000 := by
  show (clean_text env.soup env.httpResp.html).length ≤ 80000
  exact clean_text_length ..

theorem basic_fetch_text_bound (env : FetchEnv) (url : String) (r : FetchResult)
    (h : basic_fetch env url = some r) : r.text.length ≤ 80000 := by
  unfold basic_fetch at h
  rcases hb : env.basicResp with _ | b
  · rw [hb] at h
    simp at h
  · rw [hb] at h
    simp only [Option.map_some', Option.some.injEq] at h
    rw [← h]
    exact clean_text_length ..

theorem run_dynamic_text_bound (env : FetchEnv) (url : String) (r : FetchResult)
    (h : run_dynamic env url = some r) : r.text.length ≤ 80000 := by
  unfold run_dynamic at h
  split_ifs at h with hdyn
  · exact basic_fetch_text_bound env url r h
  · rcases hd : env.dynResp with _ | d
    · rw [hd] at h
      simp at h
    · rw [hd] at h
      simp only [Option.map_some', Option.some.injEq] at h
      rw [← h]
      exact clean_text_length ..

theorem scrapling_fetch_text_bound (mode url : String) (env : FetchEnv)
    (r : FetchResult) (h : (scrapling_fetch mode url env).1 = some r) :
    r.text.length ≤ 80000 := by
  unfold scrapling_fetch at h
  dsimp only at h
  by_cases h1 : env.fetcherAvail = false
  · rw [if_pos h1] at h
    exact basic_fetch_text_bound env url r h
  · rw [if_neg h1] at h
    by_cases h2 : normalize_mode mode = "HTTP"
    · rw [if_pos h2] at h
      dsimp only at h
      simp only [Option.some.injEq] at h
      rw [← h]
      exact run_http_text_bound env url
    · rw [if_neg h2] at h
      by_cases h3 : normalize_mode mode = "DYNAMIC" ∨ normalize_mode mode = "STEALTH"
      · rw [if_pos h3] at h
        dsimp only at h
        exact run_dynamic_text_bound env url r h
      · rw [if_neg h3] at h
        by_cases h4 : ((run_http env url).blocked_suspected
            || py_strip (run_http env url).text = "") = true
        · rw [if_pos h4] at h
          rcases hd : run_dynamic env url with _ | d
          · rw [hd] at h
            dsimp only at h
            simp only [Option.some.injEq] at h
            rw [← h]
            exact run_http_text_bound env url
          · rw [hd] at h
            dsimp only at h
            simp only [Option.some.injEq] at h
            rw [← h]
            exact run_dynamic_text_bound env url d hd
        · rw [if_neg h4] at h
          dsimp only at h
          simp only [Option.some.injEq] at h
          rw [← h]
          exact run_http_text_bound env url

/-! Lemmas about the crawl loop. -/

theorem follow_link_sound (env : CrawlEnv) (allowed visited : List String)
    (base : String) (dep : Nat) (href0 : String) (x : String × Nat)
    (h : follow_link env allowed visited base dep href0 = some x) :
    ((env.parse x.1).scheme = "http" ∨ (env.parse x.1).scheme = "https")
    ∧ (allowed ≠ [] → host_norm env x.1 ∈ allowed) := by
  unfold follow_link at h
  dsimp only at h
  by_cases h1 : py_strip href0 = ""
  · rw [if_pos h1] at h
    cases h
  · rw [if_neg h1] at h
    by_cases h2 : ¬((env.parse (env.urljoin base (py_strip href0))).scheme = "http"
        ∨ (env.parse (env.urljoin base (py_strip href0))).scheme = "https")
    · rw [if_pos h2] at h
      cases h
    · rw [if_neg h2] at h
      by_cases h3 : allowed ≠ [] ∧
          py_replace (py_lower ((env.parse (env.urljoin base
            (py_strip href0))).hostname.getD "")) "www." "" ∉ allowed
      · rw [if_pos h3] at h
        cases h
      · rw [if_neg h3] at h
        by_cases h4 : env.urljoin base (py_strip href0) ∈ visited
        · rw [if_pos h4] at h
          cases h
        · rw [if_neg h4] at h
          simp only [Option.some.injEq] at h
          rw [← h]
          push_neg at h2 h3
          refine ⟨h2, ?_⟩
          intro hne
          exact h3 hne

theorem crawl_loop_props (env : CrawlEnv) (mode : String) (allowed : List String)
    (maxPages maxDepth : Nat) :
    ∀ q visited pages failed ftrace enq,
      pages.length ≤ maxPages →
      ftrace.Nodup →
      (∀ u ∈ ftrace, u ∈ visited) →
      (∀ x ∈ enq, ((env.parse x.1).scheme = "http" ∨ (env.parse x.1).scheme = "https")
        ∧ (allowed ≠ [] → host_norm env x.1 ∈ allowed)) →
      (∀ pg ∈ pages, pg.text.length ≤ 80000) →
      ((crawl_loop env mode allowed maxPages maxDepth q visited pages failed ftrace
          enq).pages.length ≤ maxPages
      ∧ (crawl_loop env mode allowed maxPages maxDepth q visited pages failed ftrace
          enq).fetchTrace.Nodup
      ∧ (∀ x ∈ (crawl_loop env mode allowed maxPages maxDepth q visited pages failed
          ftrace enq).enq,
          ((env.parse x.1).scheme = "http" ∨ (env.parse x.1).scheme = "https")
          ∧ (allowed ≠ [] → host_norm env x.1 ∈ allowed))
      ∧ (∀ pg ∈ (crawl_loop env mode allowed maxPages maxDepth q visited pages failed
          ftrace enq).pages, pg.text.length ≤ 80000)) := by
  intro q visited pages failed ftrace enq hlen hnd hfv henq hpg
  induction q, visited, pages, failed, ftrace, enq
    using crawl_loop.induct env mode allowed maxPages maxDepth with
  | case1 visited pages failed ftrace enq =>
    rw [crawl_loop]
    exact ⟨hlen, hnd, henq, hpg⟩
  | case2 u dep rest visited pages failed ftrace enq hlt normalized hskip ih =>
    rw [crawl_loop]
    simp only [dif_pos hlt, if_pos hskip]
    exact ih hlen hnd hfv henq hpg
  | case3 u dep rest visited pages failed ftrace enq hlt normalized hskip visited1 ftrace1 hfeq ih =>
    rw [crawl_loop]
    simp only [dif_pos hlt, if_neg hskip, hfeq]
    push_neg at hskip
    apply ih hlen ?_ ?_ henq hpg
    · rw [List.nodup_append]
      refine ⟨hnd, List.nodup_singleton _, ?_⟩
      intro a ha hb
      simp only [List.mem_singleton] at hb
      rw [hb] at ha
      exact hskip.2 (hfv _ ha)
    · intro v hv
      rcases List.mem_append.mp hv with h1 | h2
      · exact List.mem_cons_of_mem _ (hfv v h1)
      · simp only [List.mem_singleton] at h2
        rw [h2]
        exact List.mem_cons_self ..
  | case4 u dep rest visited pages failed ftrace enq hlt normalized hskip visited1
      ftrace1 fetched hfeq base host hfil ih =>
    rw [crawl_loop]
    simp only [dif_pos hlt, if_neg hskip, hfeq]
    have hfil' : allowed ≠ []
        ∧ host_norm env (or_else fetched.final_url (py_strip u)) ≠ ""
        ∧ host_norm env (or_else fetched.final_url (py_strip u)) ∉ allowed := hfil
    rw [if_pos hfil']
    push_neg at hskip
    apply ih hlen ?_ ?_ henq hpg
    · rw [List.nodup_append]
      refine ⟨hnd, List.nodup_singleton _, ?_⟩
      intro a ha hb
      simp only [List.mem_singleton] at hb
      rw [hb] at ha
      exact hskip.2 (hfv _ ha)
    · intro v hv
      rcases List.mem_append.mp hv with hv1 | hv2
      · exact List.mem_cons_of_mem _ (hfv v hv1)
      · simp only [List.mem_singleton] at hv2
        rw [hv2]
        exact List.mem_cons_self ..
  | case5 u dep rest visited pages failed ftrace enq hlt normalized hskip visited1
      ftrace1 fetched hfeq base host hfil page pages1 hdep ih =>
    rw [crawl_loop]
    simp only [dif_pos hlt, if_neg hskip, hfeq]
    have hfil' : ¬(allowed ≠ []
        ∧ host_norm env (or_else fetched.final_url (py_strip u)) ≠ ""
        ∧ host_norm env (or_else fetched.final_url (py_strip u)) ∉ allowed) := hfil
    rw [if_neg hfil', if_pos hdep]
    push_neg at hskip
    apply ih ?_ ?_ ?_ henq ?_
    · show (pages ++ [page]).length ≤ maxPages
      simp only [List.length_append, List.length_singleton]
      omega
    · rw [List.nodup_append]
      refine ⟨hnd, List.nodup_singleton _, ?_⟩
      intro a ha hb
      simp only [List.mem_singleton] at hb
      rw [hb] at ha
      exact hskip.2 (hfv _ ha)
    · intro v hv
      rcases List.mem_append.mp hv with hv1 | hv2
      · exact List.mem_cons_of_mem _ (hfv v hv1)
      · simp only [List.mem_singleton] at hv2
        rw [hv2]
        exact List.mem_cons_self ..
    · intro pg hpgm
      rcases List.mem_append.mp hpgm with hm1 | hm2
      · exact hpg pg hm1
      · simp only [List.mem_singleton] at hm2
        rw [hm2]
        exact scrapling_fetch_text_bound mode (py_strip u) (env.fenv (py_strip u))
          fetched hfeq
  | case6 u dep rest visited pages failed ftrace enq hlt normalized hskip visited1
      ftrace1 fetched hfeq base host hfil page pages1 hdep newLinks ih =>
    rw [crawl_loop]
    simp only [dif_pos hlt, if_neg hskip, hfeq]
    have hfil' : ¬(allowed ≠ []
        ∧ host_norm env (or_else fetched.final_url (py_strip u)) ≠ ""
        ∧ host_norm env (or_else fetched.final_url (py_strip u)) ∉ allowed) := hfil
    rw [if_neg hfil', if_neg hdep]
    push_neg at hskip
    apply ih ?_ ?_ ?_ ?_ ?_
    · show (pages ++ [page]).length ≤ maxPages
      simp only [List.length_append, List.length_singleton]
      omega
    · rw [List.nodup_append]
      refine ⟨hnd, List.nodup_singleton _, ?_⟩
      intro a ha hb
      simp only [List.mem_singleton] at hb
      rw [hb] at ha
      exact hskip.2 (hfv _ ha)
    · intro v hv
      rcases List.mem_append.mp hv with hv1 | hv2
      · exact List.mem_cons_of_mem _ (hfv v hv1)
      · simp only [List.mem_singleton] at hv2
        rw [hv2]
        exact List.mem_cons_self ..
    · intro x hx
      rcases List.mem_append.mp hx with hx1 | hx2
      · exact henq x hx1
      · rcases List.mem_filterMap.mp hx2 with ⟨href, hhref, heq⟩
        exact follow_link_sound env allowed _ _ dep href x heq
    · intro pg hpgm
      rcases List.mem_append.mp hpgm with hm1 | hm2
      · exact hpg pg hm1
      · simp only [List.mem_singleton] at hm2
        rw [hm2]
        exact scrapling_fetch_text_bound mode (py_strip u) (env.fenv (py_strip u))
          fetched hfeq
  | case7 u dep rest visited pages failed ftrace enq hnfull =>
    rw [crawl_loop]
    simp only [dif_neg hnfull]
    exact ⟨hlen, hnd, henq, hpg⟩

/-- Concrete evaluation of the C9 run: one page is fetched and one follow-up
link is enqueued. -/
theorem crawl_c9_eval :
    crawl env_c9 req_c9
      = ⟨[page_c9], 0, ["http://a.www.b/"], [("http://a.www.b/page2", 1)]⟩ := by
  have e1 : req_c9.mode = "HTTP" := rfl
  have e2 : allowed_of env_c9 req_c9 = ["a.b"] := rfl
  have e3 : req_c9.maxPages = 1 := rfl
  have e4 : req_c9.maxDepth = 1 := rfl
  have e5 : req_c9.startUrls = ["http://a.www.b/"] := rfl
  have e10 : py_strip "http://a.www.b/" = "http://a.www.b/" := rfl
  have hf : (scrapling_fetch "HTTP" "http://a.www.b/"
      (env_c9.fenv "http://a.www.b/")).1 = some fetched_c9 := rfl
  have e9 : or_else fetched_c9.final_url "http://a.www.b/" = "http://a.www.b/" := rfl
  have e6 : env_c9.links fetched_c9.html = ["page2"] := rfl
  have e7 : follow_link env_c9 ["a.b"] ["http://a.www.b/"] "http://a.www.b/" 0 "page2"
      = some ("http://a.www.b/page2", 1) := rfl
  have e8 : host_norm env_c9 "http://a.www.b/" = "a.b" := rfl
  have e11 : fetched_c9.final_url = "http://a.www.b/" := rfl
  have e12 : fetched_c9.status_code = some 200 := rfl
  have e13 : fetched_c9.fetcher_used = "HTTP" := rfl
  have e14 : fetched_c9.text = "<h>" := rfl
  have e15 : fetched_c9.html = "<h>" := rfl
  have e16 : or_else "http://a.www.b/" "http://a.www.b/" = "http://a.www.b/" := rfl
  have e17 : env_c9.links "<h>" = ["page2"] := rfl
  simp +decide [crawl, crawl_loop, e1, e2, e3, e4, e5, e10, hf, e9, e6, e7, e8,
    e11, e12, e13, e14, e15, e16, e17, page_c9]

/-- Counterexample to C9 as stated: with allowedDomains = ["a.b"], the link
resolving to host "a.www.b" is enqueued (the code removes every occurrence
of "www.", giving "a.b" ∈ allowed), while its hostname lowercased with only
a leading "www." removed is "a.www.b", which is not in the allowed-domain
set. -/
theorem claim_c9_counterexample :
    req_c9.allowedDomains = some ["a.b"]
    ∧ allowed_of env_c9 req_c9 = ["a.b"]
    ∧ (crawl env_c9 req_c9).enq = [("http://a.www.b/page2", 1)]
    ∧ strip_leading_www (py_lower
        ((env_c9.parse "http://a.www.b/page2").hostname.getD ""))
        ∉ (["a.b"] : List String) := by
  refine ⟨rfl, rfl, ?_, by decide⟩
  rw [crawl_c9_eval]

/-- Claim C9 as amended: the pages list has at most maxPages entries, no URL
is fetched twice, every enqueued follow-up link's URL parses to an http or
https scheme, and when the processed allowed-domain set is non-empty every
enqueued link's hostname — lowercased, with every occurrence of "www."
removed — belongs to it. -/
theorem claim_c9_amended (env : CrawlEnv) (req : CrawlReq) :
    (crawl env req).pages.length ≤ req.maxPages
    ∧ (crawl env req).fetchTrace.Nodup
    ∧ (∀ x ∈ (crawl env req).enq,
        (env.parse x.1).scheme = "http" ∨ (env.parse x.1).scheme = "https")
    ∧ (allowed_of env req ≠ [] →
        ∀ x ∈ (crawl env req).enq, host_norm env x.1 ∈ allowed_of env req) := by
  have h := crawl_loop_props env req.mode (allowed_of env req) req.maxPages
    req.maxDepth (req.startUrls.map fun u => (u, 0)) [] [] 0 [] []
    (by simp) (by simp) (by simp) (by simp) (by simp)
  refine ⟨h.1, h.2.1, ?_, ?_⟩
  · intro x hx
    exact (h.2.2.1 x hx).1
  · intro hne x hx
    exact (h.2.2.1 x hx).2 hne

/-- Witness for the amended C9 at the concrete C9 run: the enqueued link has
an http scheme and its fully-normalized host is in the allowed set. -/
theorem claim_c9_witness :
    allowed_of env_c9 req_c9 ≠ []
    ∧ ("http://a.www.b/page2", 1) ∈ (crawl env_c9 req_c9).enq
    ∧ ((env_c9.parse "http://a.www.b/page2").scheme = "http"
        ∨ (env_c9.parse "http://a.www.b/page2").scheme = "https")
    ∧ host_norm env_c9 "http://a.www.b/page2" ∈ allowed_of env_c9 req_c9 := by
  refine ⟨by decide, ?_, ?_, ?_⟩
  · rw [crawl_c9_eval]
    simp
  · exact (claim_c9_amended env_c9 req_c9).2.2.1 ("http://a.www.b/page2", 1)
      (by rw [crawl_c9_eval]; simp)
  · exact (claim_c9_amended env_c9 req_c9).2.2.2 (by decide)
      ("http://a.www.b/page2", 1) (by rw [crawl_c9_eval]; simp)

/-- Claim C4: the `/v1/crawl` handler processes its queue sequentially and
never reads the concurrency field: two requests identical except for
concurrency (both in 1..20) produce the same pages list, the same summary
counts, and the same failed count. -/
theorem claim_c4_concurrency (env : CrawlEnv) (req : CrawlReq) (c1 c2 : Nat)
    (h11 : 1 ≤ c1) (h12 : c1 ≤ 20) (h21 : 1 ≤ c2) (h22 : c2 ≤ 20) :
    (crawl env { req with concurrency := c1 }).pages
        = (crawl env { req with concurrency := c2 }).pages
    ∧ crawl_summary env { req with concurrency := c1 }
        = crawl_summary env { req with concurrency := c2 }
    ∧ (crawl env { req with concurrency := c1 }).failedN
        = (crawl env { req with concurrency := c2 }).failedN :=
  ⟨rfl, rfl, rfl⟩

/-- Witness for C4 at the concrete crawl: concurrency 1 and 20 give the same
pages. -/
theorem claim_c4_witness :
    1 ≤ 1 ∧ 1 ≤ 20 ∧ 1 ≤ 20 ∧ 20 ≤ 20
    ∧ (crawl env_c9 { req_c9 with concurrency := 1 }).pages
        = (crawl env_c9 { req_c9 with concurrency := 20 }).pages :=
  ⟨by decide, by decide, by decide, by decide,
    (claim_c4_concurrency env_c9 req_c9 1 20 (by decide) (by decide) (by decide)
      (by decide)).1⟩

/-- Claim C10: `_clean_text` returns a string of length at most 80000 in
which whitespace runs are collapsed to single spaces (every whitespace
character is a space and no two adjacent characters are both whitespace),
the text being taken from the document with script/style/noscript contents
removed (the `soup` oracle applied to exactly those tags); consequently the
text field of every `/v1/fetch` response and of every crawled page is at
most 80000 characters. -/
theorem claim_c10_clean_text :
    (∀ soup html, (clean_text soup html).length ≤ 80000
      ∧ (∀ c ∈ (clean_text soup html).data, pyIsSpace c = true → c = ' ')
      ∧ List.Chain' no_dsp (clean_text soup html).data)
    ∧ (∀ (p : FetchReqM) (env : FetchEnv) (resp : FetchRespM) (t : String),
        fetch_endpoint p env = some resp → resp.text = some t →
        t.length ≤ 80000)
    ∧ (∀ (cenv : CrawlEnv) (req : CrawlReq), ∀ pg ∈ (crawl cenv req).pages,
        pg.text.length ≤ 80000) := by
  refine ⟨?_, ?_, ?_⟩
  · intro soup html
    exact ⟨clean_text_length soup html, (clean_text_collapsed soup html).1,
      (clean_text_collapsed soup html).2⟩
  · intro p env resp t hresp htext
    unfold fetch_endpoint at hresp
    rcases hsf : (scrapling_fetch p.mode p.url env).1 with _ | r
    · rw [hsf] at hresp
      simp at hresp
    · rw [hsf] at hresp
      simp only [Option.map_some', Option.some.injEq] at hresp
      rw [← hresp] at htext
      dsimp only at htext
      by_cases hrt : p.returnText
      · rw [if_pos hrt] at htext
        simp only [Option.some.injEq] at htext
        rw [← htext]
        exact scrapling_fetch_text_bound p.mode p.url env r hsf
      · rw [if_neg hrt] at htext
        cases htext
  · intro cenv req pg hpg
    have h := crawl_loop_props cenv req.mode (allowed_of cenv req) req.maxPages
      req.maxDepth (req.startUrls.map fun u => (u, 0)) [] [] 0 [] []
      (by simp) (by simp) (by simp) (by simp) (by simp)
    exact h.2.2.2 pg hpg

/-- Witness for C10 at a concrete fetch: the response text "hello" is within
the 80000-character bound. -/
theorem claim_c10_witness :
    fetch_endpoint ⟨"http://x/", "AUTO", true, true⟩ fetch_env_w1 = some resp_w10
    ∧ resp_w10.text = some "hello"
    ∧ ("hello" : String).length ≤ 80000 := by
  refine ⟨rfl, rfl, ?_⟩
  exact claim_c10_clean_text.2.1 ⟨"http://x/", "AUTO", true, true⟩ fetch_env_w1
    resp_w10 "hello" rfl rfl

end BrandStrategy
